import Mathlib

/-!
Verification of the moji-proctor-server core against its specification.

The development shallowly embeds, from the TypeScript source:
* the canonical JSON encoder `canonicalStringify` (src/services/signatures),
* the Ed25519 signature wrapper `verifySignature` (Ed25519 itself is an
  external Node crypto primitive and is passed in as an abstract verifier),
* the sequence guard of `eventRoutes` (src/routes/events.ts),
* the tamper detector `detectTampering` (src/services/tamperDetection.ts),
* the per-signal ingestion pipeline of `eventRoutes`, with the Prisma
  database modelled as explicit record state and the transaction as one
  atomic state update,
* the refresh-token engine `verifyRefreshToken` / `generateTokenPair`
  (src/services/auth).
-/

namespace MojiProctor

/-! ## JSON values

`Json` models a JSON-representable JavaScript value.  Numbers are carried by
their serialized literal text (`JSON.stringify` renders a number as a decimal
literal; the floating-point rendering itself is opaque to every claim, which
only concern key ordering). -/

inductive Json where
  | null : Json
  | bool (b : Bool) : Json
  | num (lit : String) : Json
  | str (s : String) : Json
  | arr (elems : List Json) : Json
  | obj (entries : List (String × Json)) : Json

/-- Hex digit for `\u00XX` escapes, lower case as produced by
`JSON.stringify`. -/
def hexDigit (n : Nat) : Char :=
  if n < 10 then Char.ofNat (48 + n) else Char.ofNat (87 + n)

/-- Escape a single character the way `JSON.stringify` does. -/
def encodeJsonChar (c : Char) : String :=
  if c = '"' then "\\\""
  else if c = '\\' then "\\\\"
  else if c = Char.ofNat 8 then "\\b"
  else if c = Char.ofNat 9 then "\\t"
  else if c = Char.ofNat 10 then "\\n"
  else if c = Char.ofNat 12 then "\\f"
  else if c = Char.ofNat 13 then "\\r"
  else if c.toNat < 32 then
    "\\u00" ++ String.singleton (hexDigit (c.toNat / 16)) ++
      String.singleton (hexDigit (c.toNat % 16))
  else String.singleton c

/-- JSON string literal encoding (double quotes plus escapes). -/
def encodeJsonString (s : String) : String :=
  "\"" ++ String.join (s.toList.map encodeJsonChar) ++ "\""

/-- Key-order used by `Object.keys(value).sort()`: plain lexicographic string
comparison (a total order; the theorems below depend only on totality,
transitivity and antisymmetry on distinct keys). -/
def keyLe (a b : String × String) : Prop := a.1 ≤ b.1

instance : DecidableRel keyLe := fun a b => inferInstanceAs (Decidable (a.1 ≤ b.1))

instance : IsTotal (String × String) keyLe := ⟨fun a b => le_total a.1 b.1⟩

instance : IsTrans (String × String) keyLe := ⟨fun _ _ _ h h' => le_trans h h'⟩

/-- Strict version of `keyLe`, used to exploit key distinctness. -/
def keyLt (a b : String × String) : Prop := a.1 < b.1

instance : IsAntisymm (String × String) keyLt :=
  ⟨fun _ _ h h' => absurd (lt_trans h h') (lt_irrefl _)⟩

/-- Sort already-rendered object entries by key (the source sorts the key
array and then serializes values in that order; sorting compares keys only
and keys are unique inside a JS object, so sorting rendered entries agrees
with rendering sorted entries). -/
def sortEntries (l : List (String × String)) : List (String × String) :=
  l.insertionSort keyLe

/-- Render one sorted object entry as `"key":value`. -/
def renderEntry (p : String × String) : String :=
  encodeJsonString p.1 ++ ":" ++ p.2

mutual

/-- `canonicalStringify` from `src/services/signatures.ts`: JSON.stringify
with the canonical replacer, i.e. object keys sorted lexicographically at
every nesting depth, arrays kept in order, compact separators. -/
def canonicalStringify : Json → String
  | .null => "null"
  | .bool b => if b then "true" else "false"
  | .num lit => lit
  | .str s => encodeJsonString s
  | .arr elems => "[" ++ String.intercalate "," (stringifyList elems) ++ "]"
  | .obj entries =>
      "\x7b" ++
        String.intercalate "," ((sortEntries (stringifyEntries entries)).map renderEntry) ++
        "\x7d"

def stringifyList : List Json → List String
  | [] => []
  | v :: rest => canonicalStringify v :: stringifyList rest

def stringifyEntries : List (String × Json) → List (String × String)
  | [] => []
  | (k, v) :: rest => (k, canonicalStringify v) :: stringifyEntries rest

end

/-- Boolean key-distinctness check. -/
def nodupBool : List String → Bool
  | [] => true
  | k :: ks => !ks.contains k && nodupBool ks

mutual

/-- A JSON value is well formed when every object has pairwise distinct keys
(guaranteed for values coming from JavaScript objects). -/
def wellFormed : Json → Bool
  | .null => true
  | .bool _ => true
  | .num _ => true
  | .str _ => true
  | .arr elems => wfList elems
  | .obj entries => nodupBool (entries.map Prod.fst) && wfEntries entries

def wfList : List Json → Bool
  | [] => true
  | v :: rest => wellFormed v && wfList rest

def wfEntries : List (String × Json) → Bool
  | [] => true
  | p :: rest => wellFormed p.2 && wfEntries rest

end

mutual

/-- Semantic equality up to permutation of object keys: scalars equal,
arrays pointwise related (order preserved), objects related by rewriting the
values pointwise and then permuting the entry list. -/
def PermEquiv : Json → Json → Prop
  | .null, .null => True
  | .bool x, .bool y => x = y
  | .num x, .num y => x = y
  | .str x, .str y => x = y
  | .arr xs, .arr ys => ArrEquiv xs ys
  | .obj xs, .obj ys => ∃ mid, EntriesEquiv xs mid ∧ mid.Perm ys
  | _, _ => False

def ArrEquiv : List Json → List Json → Prop
  | [], [] => True
  | x :: xs, y :: ys => PermEquiv x y ∧ ArrEquiv xs ys
  | _, _ => False

def EntriesEquiv : List (String × Json) → List (String × Json) → Prop
  | [], [] => True
  | p :: ps, q :: qs => p.1 = q.1 ∧ PermEquiv p.2 q.2 ∧ EntriesEquiv ps qs
  | _, _ => False

end

/-- Size-bounded induction principle for the nested inductive `Json`. -/
theorem Json.indOn (P : Json → Prop)
    (h0 : P .null) (h1 : ∀ b, P (.bool b)) (h2 : ∀ s, P (.num s)) (h3 : ∀ s, P (.str s))
    (h4 : ∀ elems, (∀ x ∈ elems, P x) → P (.arr elems))
    (h5 : ∀ entries, (∀ p ∈ entries, P p.2) → P (.obj entries))
    (j : Json) : P j := by
  suffices h : ∀ n (j : Json), sizeOf j ≤ n → P j from h (sizeOf j) j le_rfl
  intro n
  induction n with
  | zero => intro j hj; cases j <;> simp at hj
  | succ n ih =>
    intro j hj
    cases j with
    | null => exact h0
    | bool b => exact h1 b
    | num s => exact h2 s
    | str s => exact h3 s
    | arr elems =>
      refine h4 elems fun x hx => ih x ?_
      have hlt := List.sizeOf_lt_of_mem hx
      have harr : sizeOf (Json.arr elems) = 1 + sizeOf elems := by simp
      omega
    | obj entries =>
      refine h5 entries fun p hp => ih p.2 ?_
      have hlt := List.sizeOf_lt_of_mem hp
      have hp2 : sizeOf p.2 < sizeOf p := by
        cases p with
        | mk a b => simp
      have hobj : sizeOf (Json.obj entries) = 1 + sizeOf entries := by simp
      omega

/-- `nodupBool` decides `List.Nodup` (forward direction). -/
theorem nodupBool_nodup : ∀ l : List String, nodupBool l = true → l.Nodup := by
  intro l
  induction l with
  | nil => intro; exact List.nodup_nil
  | cons k ks ih =>
    intro h
    simp [nodupBool] at h
    exact List.nodup_cons.mpr ⟨by simpa using h.1, ih h.2⟩

/-- `stringifyEntries` is a `map` over the entry list. -/
theorem stringifyEntries_eq_map :
    ∀ l, stringifyEntries l = l.map fun p => (p.1, canonicalStringify p.2) := by
  intro l
  induction l with
  | nil => simp [stringifyEntries]
  | cons p rest ih =>
    cases p with
    | mk k v => simp [stringifyEntries, ih]

/-- Sorting rendered entries by key is permutation-invariant once the keys are
pairwise distinct. -/
theorem sortEntries_eq_of_perm {l₁ l₂ : List (String × String)}
    (hp : l₁.Perm l₂) (hnd : (l₁.map Prod.fst).Nodup) :
    sortEntries l₁ = sortEntries l₂ := by
  have hs₁ : List.Sorted keyLe (sortEntries l₁) := List.sorted_insertionSort keyLe l₁
  have hs₂ : List.Sorted keyLe (sortEntries l₂) := List.sorted_insertionSort keyLe l₂
  have hperm : (sortEntries l₁).Perm (sortEntries l₂) :=
    (List.perm_insertionSort keyLe l₁).trans (hp.trans (List.perm_insertionSort keyLe l₂).symm)
  have hnd₁ : ((sortEntries l₁).map Prod.fst).Nodup :=
    (((List.perm_insertionSort keyLe l₁).map Prod.fst).nodup_iff).mpr hnd
  have hnd₂ : ((sortEntries l₂).map Prod.fst).Nodup :=
    ((hperm.map Prod.fst).nodup_iff).mp hnd₁
  have hne₁ : (sortEntries l₁).Pairwise (fun a b => a.1 ≠ b.1) := by
    rw [List.Nodup, List.pairwise_map] at hnd₁
    exact hnd₁
  have hne₂ : (sortEntries l₂).Pairwise (fun a b => a.1 ≠ b.1) := by
    rw [List.Nodup, List.pairwise_map] at hnd₂
    exact hnd₂
  have hlt₁ : List.Sorted keyLt (sortEntries l₁) :=
    (List.Pairwise.and hs₁ hne₁).imp fun h => lt_of_le_of_ne h.1 h.2
  have hlt₂ : List.Sorted keyLt (sortEntries l₂) :=
    (List.Pairwise.and hs₂ hne₂).imp fun h => lt_of_le_of_ne h.1 h.2
  exact List.eq_of_perm_of_sorted hperm hlt₁ hlt₂

/-- Congruence of `stringifyList` along `ArrEquiv`, parameterized by an
induction hypothesis for the list members. -/
theorem stringifyList_congr :
    ∀ (xs ys : List Json),
      (∀ x ∈ xs, ∀ y, wellFormed x = true → PermEquiv x y →
        canonicalStringify x = canonicalStringify y) →
      wfList xs = true → ArrEquiv xs ys → stringifyList xs = stringifyList ys := by
  intro xs
  induction xs with
  | nil =>
    intro ys _ _ h
    cases ys with
    | nil => rfl
    | cons y ys => simp [ArrEquiv] at h
  | cons x xs ih =>
    intro ys hmem hwf h
    cases ys with
    | nil => simp [ArrEquiv] at h
    | cons y ys =>
      simp only [ArrEquiv] at h
      simp only [wfList, Bool.and_eq_true] at hwf
      simp only [stringifyList]
      exact congrArg₂ List.cons
        (hmem x (List.mem_cons_self x xs) y hwf.1 h.1)
        (ih ys (fun z hz => hmem z (List.mem_cons_of_mem x hz)) hwf.2 h.2)

/-- Congruence of `stringifyEntries` along `EntriesEquiv`, parameterized by an
induction hypothesis for the entry values. -/
theorem stringifyEntries_congr :
    ∀ (ps qs : List (String × Json)),
      (∀ p ∈ ps, ∀ y, wellFormed p.2 = true → PermEquiv p.2 y →
        canonicalStringify p.2 = canonicalStringify y) →
      wfEntries ps = true → EntriesEquiv ps qs → stringifyEntries ps = stringifyEntries qs := by
  intro ps
  induction ps with
  | nil =>
    intro qs _ _ h
    cases qs with
    | nil => rfl
    | cons q qs => simp [EntriesEquiv] at h
  | cons p ps ih =>
    intro qs hmem hwf h
    cases qs with
    | nil => simp [EntriesEquiv] at h
    | cons q qs =>
      simp only [EntriesEquiv] at h
      simp only [wfEntries, Bool.and_eq_true] at hwf
      simp only [stringifyEntries_eq_map, List.map]
      refine congrArg₂ List.cons ?_ ?_
      · have hv : canonicalStringify p.2 = canonicalStringify q.2 :=
          hmem p (List.mem_cons_self p ps) q.2 hwf.1 h.2.1
        simp [h.1, hv]
      · have hrest := ih qs (fun z hz => hmem z (List.mem_cons_of_mem p hz)) hwf.2 h.2.2
        rw [stringifyEntries_eq_map, stringifyEntries_eq_map] at hrest
        exact hrest

/-- Keys of the rendered entry list are the keys of the entry list. -/
theorem stringifyEntries_fst (l : List (String × Json)) :
    (stringifyEntries l).map Prod.fst = l.map Prod.fst := by
  rw [stringifyEntries_eq_map, List.map_map]
  rfl

/-- C1: the canonical encoding is a pure function of semantic content —
permuting object keys at any nesting depth (with arrays kept pointwise in
order), for values whose objects have pairwise distinct keys, yields the
byte-identical encoded string.  The encoder is a total Lean function, so it
cannot throw on any `Json` value. -/
theorem canonicalStringify_key_order_independent :
    ∀ (j j' : Json), wellFormed j = true → PermEquiv j j' →
      canonicalStringify j = canonicalStringify j' := by
  intro j
  induction j using Json.indOn with
  | h0 =>
    intro j' _ h
    cases j' <;> simp [PermEquiv] at h ⊢
  | h1 b =>
    intro j' _ h
    cases j' <;> simp [PermEquiv] at h <;> simp [h]
  | h2 s =>
    intro j' _ h
    cases j' <;> simp [PermEquiv] at h <;> simp [canonicalStringify, h]
  | h3 s =>
    intro j' _ h
    cases j' <;> simp [PermEquiv] at h <;> simp [canonicalStringify, h]
  | h4 elems ihElems =>
    intro j' hwf h
    cases j' with
    | arr ys =>
      simp only [PermEquiv] at h
      simp only [wellFormed] at hwf
      have hl : stringifyList elems = stringifyList ys :=
        stringifyList_congr elems ys ihElems hwf h
      simp [canonicalStringify, hl]
    | null => simp [PermEquiv] at h
    | bool y => simp [PermEquiv] at h
    | num y => simp [PermEquiv] at h
    | str y => simp [PermEquiv] at h
    | obj y => simp [PermEquiv] at h
  | h5 entries ihEntries =>
    intro j' hwf h
    cases j' with
    | obj entries' =>
      simp only [PermEquiv] at h
      obtain ⟨mid, hmid, hperm⟩ := h
      simp only [wellFormed, Bool.and_eq_true] at hwf
      have h1 : stringifyEntries entries = stringifyEntries mid :=
        stringifyEntries_congr entries mid ihEntries hwf.2 hmid
      have h2 : (stringifyEntries mid).Perm (stringifyEntries entries') := by
        rw [stringifyEntries_eq_map, stringifyEntries_eq_map]
        exact hperm.map _
      have hnd : ((stringifyEntries entries).map Prod.fst).Nodup := by
        rw [stringifyEntries_fst]
        exact nodupBool_nodup _ hwf.1
      have hsort : sortEntries (stringifyEntries entries) =
          sortEntries (stringifyEntries entries') :=
        sortEntries_eq_of_perm (h1 ▸ h2) hnd
      simp [canonicalStringify, hsort]
    | null => simp [PermEquiv] at h
    | bool y => simp [PermEquiv] at h
    | num y => simp [PermEquiv] at h
    | str y => simp [PermEquiv] at h
    | arr y => simp [PermEquiv] at h

/-- Witness for C1: encoding `\x7ba:1,b:2\x7d` and `\x7bb:2,a:1\x7d` gives
identical bytes. -/
theorem canonicalStringify_key_order_independent_witness :
    wellFormed (Json.obj [("a", Json.num "1"), ("b", Json.num "2")]) = true ∧
    canonicalStringify (Json.obj [("a", Json.num "1"), ("b", Json.num "2")]) =
      canonicalStringify (Json.obj [("b", Json.num "2"), ("a", Json.num "1")]) := by
  have hwf : wellFormed (Json.obj [("a", Json.num "1"), ("b", Json.num "2")]) = true := by
    simp [wellFormed, wfEntries, nodupBool]
  have hperm : PermEquiv (Json.obj [("a", Json.num "1"), ("b", Json.num "2")])
      (Json.obj [("b", Json.num "2"), ("a", Json.num "1")]) := by
    simp only [PermEquiv]
    exact ⟨[("a", Json.num "1"), ("b", Json.num "2")],
      by simp [EntriesEquiv, PermEquiv],
      List.Perm.swap ("b", Json.num "2") ("a", Json.num "1") []⟩
  exact ⟨hwf, canonicalStringify_key_order_independent _ _ hwf hperm⟩

/-! ## Sequence Guard

From `eventRoutes` (src/routes/events.ts, step 5) plus
`incrementSequenceNumber` (src/services/signatures.ts): `current` is the
`DeviceSequence.lastSeq` for the (device, assignment) pair, `0` when no row
exists (`getNextSequenceNumber`); on acceptance the row is upserted to
`lastSeq := seq`.  Result: `none` = reject, `some n` = accept with the row
advanced to `n`. -/

def checkAndAdvance (current seq : Nat) : Option Nat :=
  if seq ≤ current then none
  else if seq ≠ current + 1 ∧ ¬ (current = 0) then none
  else some seq

/-- C2: the Sequence Guard decision: reject `seq ≤ current`; accept
`seq = current + 1`; when `current = 0` accept any `seq ≥ 1` (first-signal
re-sync); reject every other gap; on acceptance `lastSeq` becomes exactly
`seq`. -/
theorem seqGuard_decision (current seq : Nat) (h : 1 ≤ seq) :
    (seq ≤ current → checkAndAdvance current seq = none) ∧
    (seq = current + 1 → checkAndAdvance current seq = some seq) ∧
    (current = 0 → checkAndAdvance current seq = some seq) ∧
    (current ≠ 0 → current < seq → seq ≠ current + 1 → checkAndAdvance current seq = none) ∧
    (∀ n, checkAndAdvance current seq = some n → n = seq) := by
  unfold checkAndAdvance
  split_ifs with h1 h2
  · exact ⟨fun _ => rfl, fun hc => by omega, fun hc => by omega,
      fun _ _ _ => rfl, fun n hn => nomatch hn⟩
  · exact ⟨fun hc => by omega, fun hc => absurd hc h2.1, fun hc => absurd hc h2.2,
      fun _ _ _ => rfl, fun n hn => nomatch hn⟩
  · refine ⟨fun hc => absurd hc h1, fun _ => rfl, fun _ => rfl, ?_, 
      fun n hn => (Option.some.inj hn).symm⟩
    intro hc1 hc2 hc3
    exact absurd ⟨hc3, hc1⟩ h2

/-- Witness for C2 at the first-signal re-sync point `current = 0`,
`seq = 3`. -/
theorem seqGuard_decision_witness :
    1 ≤ 3 ∧ checkAndAdvance 0 3 = some 3 :=
  ⟨by omega, (seqGuard_decision 0 3 (by omega)).2.2.1 rfl⟩

/-! ## Signature verifier

`verifySignature` (src/services/signatures.ts).  The Ed25519 primitive lives
in Node's crypto module; it is passed in as an abstract verifier `ed` over
the canonical message, the 32 raw public-key bytes and the 64 signature
bytes.  `Buffer.from(hex, 'hex')` truncates at the first invalid pair;
`crypto.createPublicKey` throws unless the DER SPKI carries exactly 32 raw
key bytes; a wrong-length signature fails verification; every throw is
caught by the surrounding try/catch and becomes `false`. -/

/-- Value of a hex digit (Node accepts both cases). -/
def hexVal (c : Char) : Option Nat :=
  if '0' ≤ c ∧ c ≤ '9' then some (c.toNat - 48)
  else if 'a' ≤ c ∧ c ≤ 'f' then some (c.toNat - 87)
  else if 'A' ≤ c ∧ c ≤ 'F' then some (c.toNat - 55)
  else none

/-- Node `Buffer.from(s, 'hex')`: decode pairs of hex digits, stop at the
first invalid pair or a trailing lone digit. -/
def hexDecodeAux : List Char → List Nat
  | c1 :: c2 :: rest =>
    match hexVal c1, hexVal c2 with
    | some hi, some lo => (16 * hi + lo) :: hexDecodeAux rest
    | _, _ => []
  | _ => []

def hexDecode (s : String) : List Nat :=
  hexDecodeAux s.toList

/-- Body of `verifySignature` before the catch-all: `.error` models a thrown
exception (`crypto.createPublicKey` on a key that is not 32 raw bytes). -/
def verifySignatureE (ed : String → List Nat → List Nat → Bool)
    (payload : Json) (signatureHex publicKeyHex : String) : Except Unit Bool :=
  let canonicalPayload := canonicalStringify payload
  let signature := hexDecode signatureHex
  let publicKeyRaw := hexDecode publicKeyHex
  if publicKeyRaw.length ≠ 32 then Except.error ()
  else Except.ok ((signature.length == 64) && ed canonicalPayload publicKeyRaw signature)

/-- `verifySignature`: try/catch wrapper returning `false` on any throw. -/
def verifySignature (ed : String → List Nat → List Nat → Bool)
    (payload : Json) (signatureHex publicKeyHex : String) : Bool :=
  match verifySignatureE ed payload signatureHex publicKeyHex with
  | Except.error _ => false
  | Except.ok b => b

/-- C6: `verifySignature` is total and returns `true` exactly when both hex
inputs decode to the right lengths and the Ed25519 primitive accepts; on any
malformed input (wrong length, non-hex — which decodes short) or
verification failure it returns `false`, and it never throws (the result is
always a boolean). -/
theorem verifySignature_total_safe (ed : String → List Nat → List Nat → Bool)
    (payload : Json) (signatureHex publicKeyHex : String) :
    verifySignature ed payload signatureHex publicKeyHex = true ↔
      ((hexDecode publicKeyHex).length = 32 ∧ (hexDecode signatureHex).length = 64 ∧
        ed (canonicalStringify payload) (hexDecode publicKeyHex) (hexDecode signatureHex) = true) := by
  unfold verifySignature verifySignatureE
  by_cases h1 : (hexDecode publicKeyHex).length = 32
  · simp [h1]
  · simp [h1]

/-! ## Tamper detection

From `src/services/tamperDetection.ts`.  `detectTampering` is embedded as a
pure function of the previously stored `DeviceCheckpoint` state (read by
`getCheckpointState`, `none` when no row exists), the signal data and the
validated payload.  SHA-256 of the hash-chain input is modelled as the
chain-input string itself (an injective pairing); no claim depends on the
digest function.  JS `null`/`undefined` are both modelled as `none`; the
places where the source distinguishes them are noted inline. -/

inductive TamperType where
  | checkpoint_reset
  | sequence_gap
  | state_mismatch
  | missing_checkpoint
deriving DecidableEq

structure CheckpointState where
  lastCheckpointId : Option String
  stateHash : String
  seq : Nat
  sessionCount : Nat
  totalFocusedSeconds : Nat
  hasDiscontinuity : Bool
deriving DecidableEq

structure SignalData where
  eventId : String
  type : String
  timestamp : String
  seq : Nat
  sessionId : String
  checkpointId : Option String
deriving DecidableEq

/-- The validated-payload fields the tamper detector reads
(`last_checkpoint_id` for UNVERIFIED_CHANGES, `focused_seconds` for
SESSION_END); the remaining validated fields are never inspected by it. -/
structure Payload where
  last_checkpoint_id : Option String := none
  focused_seconds : Option Nat := none
deriving DecidableEq

structure TamperDetectionResult where
  isTampered : Bool
  tamperType : Option TamperType
  description : Option String
  updatedState : CheckpointState
  previousCheckpointId : Option String
deriving DecidableEq

/-- `calculateStateHash`: the cumulative hash-chain step (digest modelled as
the identity on the chain input; `checkpointId || ''` renders a missing or
empty id as the empty string). -/
def calculateStateHash (previousHash : String) (sd : SignalData) : String :=
  previousHash ++ "|" ++ sd.eventId ++ "|" ++ sd.type ++ "|" ++ sd.timestamp ++ "|" ++
    toString sd.seq ++ "|" ++ sd.checkpointId.getD ""

/-- JS `x || null` on an optional string: empty string collapses to null. -/
def jsOrNull (o : Option String) : Option String :=
  match o with
  | some s => if s = "" then none else some s
  | none => none

/-- Render an optional string inside a JS template literal. -/
def optStr : Option String → String
  | some s => s
  | none => "null"

/-- `currentState.lastCheckpointId !== null && currentState.lastCheckpointId !== ''`. -/
def hadPreviousCheckpoint (st : CheckpointState) : Bool :=
  match st.lastCheckpointId with
  | some s => s != ""
  | none => false

/-- `signalData.checkpointId !== null && signalData.checkpointId !== undefined`. -/
def hasNewCheckpoint (sd : SignalData) : Bool :=
  sd.checkpointId.isSome

/-- `payload?.last_checkpoint_id === currentState.lastCheckpointId`: the JS
triple-equals is only reached under `hadPreviousCheckpoint`, where the right
side is a non-empty string, so a missing payload or missing field compares
unequal. -/
def payloadReferencesPrevious (payload : Option Payload) (st : CheckpointState) : Bool :=
  match payload.bind Payload.last_checkpoint_id, st.lastCheckpointId with
  | some a, some b => a == b
  | _, _ => false

/-- First-signal state seeding (`!currentState` branch of `detectTampering`). -/
def seedState (sd : SignalData) (payload : Option Payload) : CheckpointState :=
  { lastCheckpointId := jsOrNull sd.checkpointId
    stateHash := calculateStateHash "" sd
    seq := sd.seq
    sessionCount := if sd.type == "SESSION_START" then 1 else 0
    totalFocusedSeconds := (payload.bind Payload.focused_seconds).getD 0
    hasDiscontinuity := false }

/-- The detection chain of `detectTampering` (the if/else-if ladder), giving
the detected tamper kind and its description. -/
def detectChain (st : CheckpointState) (sd : SignalData) (payload : Option Payload) :
    Option TamperType × Option String :=
  if hadPreviousCheckpoint st && !hasNewCheckpoint sd then
    (some TamperType.checkpoint_reset,
     some ("Client state reset: previous checkpoint " ++ optStr st.lastCheckpointId ++
       " was lost. This indicates the .verified folder may have been deleted."))
  else if hadPreviousCheckpoint st && hasNewCheckpoint sd &&
      (sd.checkpointId != st.lastCheckpointId) then
    if !payloadReferencesPrevious payload st && sd.type == "UNVERIFIED_CHANGES" then
      (some TamperType.checkpoint_reset,
       some ("Checkpoint discontinuity: expected reference to checkpoint " ++
         optStr st.lastCheckpointId ++ ", but received new checkpoint " ++
         optStr sd.checkpointId ++
         " without proper linkage. This indicates the .verified folder may have been deleted."))
    else (none, none)
  else if st.seq + 1 < sd.seq then
    (some TamperType.sequence_gap,
     some ("Sequence gap detected: expected seq " ++ toString (st.seq + 1) ++
       ", received " ++ toString sd.seq))
  else (none, none)

/-- State update of `detectTampering` when a prior state exists: the hash
chain always advances, counters update, `hasDiscontinuity` is ORed with the
detection outcome. -/
def updatedStateOf (st : CheckpointState) (sd : SignalData) (payload : Option Payload)
    (detected : Option TamperType) : CheckpointState :=
  { lastCheckpointId := if hasNewCheckpoint sd then sd.checkpointId else st.lastCheckpointId
    stateHash := calculateStateHash st.stateHash sd
    seq := sd.seq
    sessionCount := if sd.type == "SESSION_START" then st.sessionCount + 1 else st.sessionCount
    totalFocusedSeconds :=
      if sd.type == "SESSION_END" then
        match payload.bind Payload.focused_seconds with
        | some n => if n ≠ 0 then st.totalFocusedSeconds + n else st.totalFocusedSeconds
        | none => st.totalFocusedSeconds
      else st.totalFocusedSeconds
    hasDiscontinuity := st.hasDiscontinuity || detected.isSome }

/-- `detectTampering` from `src/services/tamperDetection.ts`. -/
def detectTampering (currentState : Option CheckpointState) (sd : SignalData)
    (payload : Option Payload) : TamperDetectionResult :=
  match currentState with
  | none =>
    { isTampered := false
      tamperType := none
      description := none
      updatedState := seedState sd payload
      previousCheckpointId := none }
  | some st =>
    let detected := detectChain st sd payload
    let newState := updatedStateOf st sd payload detected.1
    if detected.1.isSome then
      { isTampered := true
        tamperType := detected.1
        description := some (match detected.2 with
          | some d => if d = "" then "Tampering detected" else d
          | none => "Tampering detected")
        updatedState := newState
        previousCheckpointId := st.lastCheckpointId }
    else
      { isTampered := false
        tamperType := none
        description := none
        updatedState := newState
        previousCheckpointId := none }

/-- C3: `hasDiscontinuity` is sticky — whenever the prior checkpoint state
has `hasDiscontinuity = true`, the updated state returned by
`detectTampering` has `hasDiscontinuity = true`, for every incoming signal
and payload; it never transitions back to `false`. -/
theorem hasDiscontinuity_sticky (st : CheckpointState) (sd : SignalData)
    (payload : Option Payload) (h : st.hasDiscontinuity = true) :
    (detectTampering (some st) sd payload).updatedState.hasDiscontinuity = true := by
  unfold detectTampering
  by_cases hd : (detectChain st sd payload).1.isSome
  · simp [hd, updatedStateOf, h]
  · simp [hd, updatedStateOf, h]

/-- Witness for C3 at a concrete flagged state and a clean follow-up
signal. -/
theorem hasDiscontinuity_sticky_witness :
    ({ lastCheckpointId := none
       stateHash := ""
       seq := 1
       sessionCount := 0
       totalFocusedSeconds := 0
       hasDiscontinuity := true } : CheckpointState).hasDiscontinuity = true ∧
    (detectTampering
      (some { lastCheckpointId := none
              stateHash := ""
              seq := 1
              sessionCount := 0
              totalFocusedSeconds := 0
              hasDiscontinuity := true })
      { eventId := "e"
        type := "SESSION_START"
        timestamp := "t"
        seq := 2
        sessionId := "s"
        checkpointId := none }
      none).updatedState.hasDiscontinuity = true :=
  ⟨rfl, hasDiscontinuity_sticky _ _ _ rfl⟩

/-- C4 counterexample: prior state has checkpoint "ck1" and `seq = 1`; a
SESSION_START signal arrives carrying checkpoint "ck2" and `seq = 5`.  The
checkpoint-reset check does not flag it, the checkpoint-discontinuity check
does not flag it (the type is not UNVERIFIED_CHANGES), and `5 > 1 + 1`, yet
`detectTampering` reports no tampering at all: the sequence-gap branch sits
behind the discontinuity guard in the else-if ladder, and that guard
matched without flagging. -/
theorem tamper_gap_counterexample :
    (detectTampering
      (some { lastCheckpointId := some "ck1"
              stateHash := ""
              seq := 1
              sessionCount := 0
              totalFocusedSeconds := 0
              hasDiscontinuity := false })
      { eventId := "e2"
        type := "SESSION_START"
        timestamp := "t"
        seq := 5
        sessionId := "s"
        checkpointId := some "ck2" }
      none).isTampered = false ∧
    (detectTampering
      (some { lastCheckpointId := some "ck1"
              stateHash := ""
              seq := 1
              sessionCount := 0
              totalFocusedSeconds := 0
              hasDiscontinuity := false })
      { eventId := "e2"
        type := "SESSION_START"
        timestamp := "t"
        seq := 5
        sessionId := "s"
        checkpointId := some "ck2" }
      none).tamperType = none ∧
    (1 : Nat) + 1 < 5 := by
  refine ⟨rfl, rfl, by omega⟩

/-- C4 (amended): with a prior state, when the checkpoint-reset guard does
not match and the checkpoint-discontinuity guard (both checkpoint ids
present and differing) does not match — not merely "does not flag" — and
`seq > priorSeq + 1`, the detector flags `sequence_gap`. -/
theorem tamper_residual_sequence_gap (st : CheckpointState) (sd : SignalData)
    (payload : Option Payload)
    (h1 : (hadPreviousCheckpoint st && !hasNewCheckpoint sd) = false)
    (h2 : (hadPreviousCheckpoint st && hasNewCheckpoint sd &&
      (sd.checkpointId != st.lastCheckpointId)) = false)
    (h3 : st.seq + 1 < sd.seq) :
    (detectTampering (some st) sd payload).isTampered = true ∧
    (detectTampering (some st) sd payload).tamperType = some TamperType.sequence_gap := by
  unfold detectTampering detectChain
  simp [h1, h2, h3]

/-- Witness for the amended C4 at a prior state with no checkpoint,
`priorSeq = 1`, incoming `seq = 5`. -/
theorem tamper_residual_sequence_gap_witness :
    (hadPreviousCheckpoint
        { lastCheckpointId := none
          stateHash := ""
          seq := 1
          sessionCount := 0
          totalFocusedSeconds := 0
          hasDiscontinuity := false } &&
      !(hasNewCheckpoint
        { eventId := "e2"
          type := "BURST_FLAG"
          timestamp := "t"
          seq := 5
          sessionId := "s"
          checkpointId := none })) = false ∧
    (1 : Nat) + 1 < 5 ∧
    (detectTampering
      (some { lastCheckpointId := none
              stateHash := ""
              seq := 1
              sessionCount := 0
              totalFocusedSeconds := 0
              hasDiscontinuity := false })
      { eventId := "e2"
        type := "BURST_FLAG"
        timestamp := "t"
        seq := 5
        sessionId := "s"
        checkpointId := none }
      none).tamperType = some TamperType.sequence_gap :=
  ⟨rfl, by omega,
    (tamper_residual_sequence_gap
      { lastCheckpointId := none
        stateHash := ""
        seq := 1
        sessionCount := 0
        totalFocusedSeconds := 0
        hasDiscontinuity := false }
      { eventId := "e2"
        type := "BURST_FLAG"
        timestamp := "t"
        seq := 5
        sessionId := "s"
        checkpointId := none }
      none rfl rfl (by decide)).2⟩

/-! ## Token rotation engine

From `src/services/auth.ts`.  The Prisma `refresh_tokens` table is the
explicit list state; the JWT signer, the current time, and the randomly
generated token value and row id are environment inputs passed as
parameters. -/

structure RefreshTokenRow where
  id : String
  userId : String
  token : String
  expiresAt : Int
  revokedAt : Option Int
  createdAt : Int
deriving DecidableEq

structure AuthDb where
  refreshTokens : List RefreshTokenRow
deriving DecidableEq

structure TokenPair where
  accessToken : String
  refreshToken : String
deriving DecidableEq

/-- `orderBy createdAt: 'desc'` comparison used by the pruning query. -/
def moreRecent (a b : RefreshTokenRow) : Prop := b.createdAt ≤ a.createdAt

instance : DecidableRel moreRecent := fun a b => inferInstanceAs (Decidable (b.createdAt ≤ a.createdAt))

/-- `generateTokenPair`: sign an access token for the user, store a fresh
refresh-token row expiring in 30 days, then delete every row of this user
beyond the 5 most recent. -/
def generateTokenPair (fastifySign : String → String) (now : Int)
    (newId newToken : String) (db : AuthDb) (userId : String) : AuthDb × TokenPair :=
  let accessToken := fastifySign userId
  let newRow : RefreshTokenRow :=
    { id := newId
      userId := userId
      token := newToken
      expiresAt := now + 30 * 24 * 60 * 60 * 1000
      revokedAt := none
      createdAt := now }
  let db1 : AuthDb := { refreshTokens := db.refreshTokens ++ [newRow] }
  let mine := (db1.refreshTokens.filter (fun r => r.userId == userId)).insertionSort moreRecent
  let oldIds := (mine.drop 5).map RefreshTokenRow.id
  let db2 : AuthDb := { refreshTokens := db1.refreshTokens.filter (fun r => !(oldIds.contains r.id)) }
  (db2, { accessToken := accessToken, refreshToken := newToken })

inductive RefreshOutcome where
  | invalid
  | expired
  | reuseDetected
  | rotated (pair : TokenPair)
deriving DecidableEq

/-- `verifyRefreshToken`: look up the presented token; a missing row fails
as invalid; an expired row is deleted (by token value) and fails as expired;
a row still carrying a revocation timestamp triggers deletion of every row
of that user and fails as reuse-detected; otherwise the row is deleted (by
id) and a brand-new pair is issued via `generateTokenPair`. -/
def verifyRefreshToken (fastifySign : String → String) (now : Int)
    (newId newToken : String) (db : AuthDb) (token : String) : AuthDb × RefreshOutcome :=
  match db.refreshTokens.find? (fun r => r.token == token) with
  | none => (db, RefreshOutcome.invalid)
  | some r =>
    if r.expiresAt < now then
      ({ refreshTokens := db.refreshTokens.filter (fun x => !(x.token == token)) },
        RefreshOutcome.expired)
    else if r.revokedAt.isSome then
      ({ refreshTokens := db.refreshTokens.filter (fun x => !(x.userId == r.userId)) },
        RefreshOutcome.reuseDetected)
    else
      let db1 : AuthDb := { refreshTokens := db.refreshTokens.filter (fun x => !(x.id == r.id)) }
      let res := generateTokenPair fastifySign now newId newToken db1 r.userId
      (res.1, RefreshOutcome.rotated res.2)

/-- `revokeRefreshToken` (logout): `deleteMany` by token value — the row is
deleted outright, no revocation timestamp is ever written. -/
def revokeRefreshToken (db : AuthDb) (token : String) : AuthDb :=
  { refreshTokens := db.refreshTokens.filter (fun x => !(x.token == token)) }

/-- C10: the expiry check precedes the reuse check — a stored token whose
`expiresAt` is in the past, even one carrying a revocation timestamp, only
has its own row deleted (the rows of every other token survive the filter)
and the request fails as expired; the delete-all-tokens reuse containment
never fires for an expired token. -/
theorem verifyRefreshToken_expiry_precedes_reuse
    (fastifySign : String → String) (now : Int) (newId newToken : String)
    (db : AuthDb) (token : String) (r : RefreshTokenRow)
    (hfind : db.refreshTokens.find? (fun x => x.token == token) = some r)
    (hexp : r.expiresAt < now) :
    verifyRefreshToken fastifySign now newId newToken db token =
      ({ refreshTokens := db.refreshTokens.filter (fun x => !(x.token == token)) },
        RefreshOutcome.expired) := by
  unfold verifyRefreshToken
  rw [hfind]
  simp [hexp]

/-- Witness for C10: one stored token, expired and also revoked; the result
is `expired` with just that row removed, the other user's row intact. -/
theorem verifyRefreshToken_expiry_precedes_reuse_witness :
    (({ refreshTokens := [
        { id := "r1"
          userId := "u"
          token := "R1"
          expiresAt := 5
          revokedAt := some 3
          createdAt := 0 },
        { id := "r9"
          userId := "v"
          token := "R9"
          expiresAt := 100
          revokedAt := none
          createdAt := 0 }] } : AuthDb).refreshTokens.find?
            (fun x => x.token == "R1") =
      some { id := "r1"
             userId := "u"
             token := "R1"
             expiresAt := 5
             revokedAt := some 3
             createdAt := 0 }) ∧
    verifyRefreshToken (fun u => u) 10 "rn" "RN"
      { refreshTokens := [
        { id := "r1"
          userId := "u"
          token := "R1"
          expiresAt := 5
          revokedAt := some 3
          createdAt := 0 },
        { id := "r9"
          userId := "v"
          token := "R9"
          expiresAt := 100
          revokedAt := none
          createdAt := 0 }] } "R1" =
      ({ refreshTokens := [
        { id := "r9"
          userId := "v"
          token := "R9"
          expiresAt := 100
          revokedAt := none
          createdAt := 0 }] }, RefreshOutcome.expired) := by
  refine ⟨by decide, ?_⟩
  rw [verifyRefreshToken_expiry_precedes_reuse (fun u => u) 10 "rn" "RN" _ "R1"
    { id := "r1"
      userId := "u"
      token := "R1"
      expiresAt := 5
      revokedAt := some 3
      createdAt := 0 } (by decide) (by decide)]
  decide

/-- A token with no matching row fails as invalid with the store
untouched. -/
theorem verifyRefreshToken_invalid (fastifySign : String → String) (now : Int)
    (newId newToken : String) (db : AuthDb) (token : String)
    (h : db.refreshTokens.find? (fun r => r.token == token) = none) :
    verifyRefreshToken fastifySign now newId newToken db token =
      (db, RefreshOutcome.invalid) := by
  unfold verifyRefreshToken
  rw [h]

/-- Rows surviving `generateTokenPair` either come from the incoming store
or carry the freshly generated token value. -/
theorem generateTokenPair_tokens (fastifySign : String → String) (now : Int)
    (newId newToken : String) (db : AuthDb) (userId : String) :
    ∀ x ∈ (generateTokenPair fastifySign now newId newToken db userId).1.refreshTokens,
      x ∈ db.refreshTokens ∨ x.token = newToken := by
  intro x hx
  unfold generateTokenPair at hx
  simp only [List.mem_filter, List.mem_append, List.mem_singleton] at hx
  rcases hx.1 with h1 | h2
  · exact Or.inl h1
  · subst h2
    exact Or.inr rfl

/-- C5 counterexample: user "u" holds refresh token R1 only; R1 is rotated
(into R2); presenting R1 a second time fails as `invalid` — not as
token-reuse — with the store unchanged by the second call, and the user's
rotated token survives (no global invalidation happens). -/
theorem token_rotation_counterexample :
    (verifyRefreshToken (fun u => u) 10 "r2" "R2"
      { refreshTokens := [
        { id := "r1"
          userId := "u"
          token := "R1"
          expiresAt := 100
          revokedAt := none
          createdAt := 0 }] } "R1").2 =
      RefreshOutcome.rotated { accessToken := "u", refreshToken := "R2" } ∧
    (verifyRefreshToken (fun u => u) 11 "r3" "R3"
      (verifyRefreshToken (fun u => u) 10 "r2" "R2"
        { refreshTokens := [
          { id := "r1"
            userId := "u"
            token := "R1"
            expiresAt := 100
            revokedAt := none
            createdAt := 0 }] } "R1").1 "R1").2 = RefreshOutcome.invalid ∧
    (verifyRefreshToken (fun u => u) 11 "r3" "R3"
      (verifyRefreshToken (fun u => u) 10 "r2" "R2"
        { refreshTokens := [
          { id := "r1"
            userId := "u"
            token := "R1"
            expiresAt := 100
            revokedAt := none
            createdAt := 0 }] } "R1").1 "R1").1 =
      (verifyRefreshToken (fun u => u) 10 "r2" "R2"
        { refreshTokens := [
          { id := "r1"
            userId := "u"
            token := "R1"
            expiresAt := 100
            revokedAt := none
            createdAt := 0 }] } "R1").1 ∧
    (verifyRefreshToken (fun u => u) 10 "r2" "R2"
      { refreshTokens := [
        { id := "r1"
          userId := "u"
          token := "R1"
          expiresAt := 100
          revokedAt := none
          createdAt := 0 }] } "R1").1.refreshTokens.filter
        (fun x => x.userId == "u") ≠ [] := by
  refine ⟨rfl, rfl, rfl, by decide⟩

/-- C5 (amended): presenting a live (stored, unexpired, unrevoked) refresh
token rotates it — the row is deleted and a brand-new pair issued — so,
under the unique-token-value constraint and freshness of the generated
value, no row with the old value remains and presenting the old token again
fails as `invalid` with the store untouched.  The delete-all-tokens
containment fires only for a row still carrying a revocation timestamp,
which the rotation path (delete outright) never leaves behind. -/
theorem token_rotation_single_use
    (fastifySign : String → String) (now : Int) (newId newToken : String)
    (db : AuthDb) (token : String) (r : RefreshTokenRow)
    (hfind : db.refreshTokens.find? (fun x => x.token == token) = some r)
    (hexp : ¬ r.expiresAt < now)
    (hrev : r.revokedAt = none)
    (huniq : (db.refreshTokens.map RefreshTokenRow.token).Nodup)
    (hfresh : newToken ≠ token) :
    (verifyRefreshToken fastifySign now newId newToken db token).2 =
      RefreshOutcome.rotated { accessToken := fastifySign r.userId
                               refreshToken := newToken } ∧
    (verifyRefreshToken fastifySign now newId newToken db token).1.refreshTokens.find?
      (fun x => x.token == token) = none ∧
    ∀ (sign2 : String → String) (now2 : Int) (id2 tok2 : String),
      verifyRefreshToken sign2 now2 id2 tok2
        (verifyRefreshToken fastifySign now newId newToken db token).1 token =
      ((verifyRefreshToken fastifySign now newId newToken db token).1,
        RefreshOutcome.invalid) := by
  have hr_mem : r ∈ db.refreshTokens := List.mem_of_find?_eq_some hfind
  have hr_tok : r.token = token := by
    have h := List.find?_some hfind
    simpa using h
  have hmain : verifyRefreshToken fastifySign now newId newToken db token =
      ((generateTokenPair fastifySign now newId newToken
          { refreshTokens := db.refreshTokens.filter (fun x => !(x.id == r.id)) } r.userId).1,
        RefreshOutcome.rotated
          (generateTokenPair fastifySign now newId newToken
            { refreshTokens := db.refreshTokens.filter (fun x => !(x.id == r.id)) } r.userId).2) := by
    unfold verifyRefreshToken
    rw [hfind]
    simp [hexp, hrev]
  have hpair : (generateTokenPair fastifySign now newId newToken
      { refreshTokens := db.refreshTokens.filter (fun x => !(x.id == r.id)) } r.userId).2 =
      { accessToken := fastifySign r.userId, refreshToken := newToken } := rfl
  have hnone : (generateTokenPair fastifySign now newId newToken
      { refreshTokens := db.refreshTokens.filter (fun x => !(x.id == r.id)) } r.userId).1.refreshTokens.find?
        (fun x => x.token == token) = none := by
    apply List.find?_eq_none.mpr
    intro x hx
    rcases generateTokenPair_tokens fastifySign now newId newToken
        { refreshTokens := db.refreshTokens.filter (fun y => !(y.id == r.id)) } r.userId x hx with
      h1 | h2
    · obtain ⟨hxdb, hxid⟩ := List.mem_filter.mp h1
      have hxid' : x.id ≠ r.id := by simpa using hxid
      intro hcontra
      have hxtok : x.token = token := eq_of_beq hcontra
      have hxr : x = r := List.inj_on_of_nodup_map huniq hxdb hr_mem (by rw [hxtok, hr_tok])
      exact hxid' (congrArg RefreshTokenRow.id hxr)
    · intro hcontra
      refine hfresh ?_
      rw [← h2]
      exact eq_of_beq hcontra
  refine ⟨?_, ?_, ?_⟩
  · rw [hmain, hpair]
  · rw [hmain]
    exact hnone
  · intro sign2 now2 id2 tok2
    rw [hmain]
    exact verifyRefreshToken_invalid sign2 now2 id2 tok2 _ token hnone

/-- Witness for the amended C5 at the concrete single-token store. -/
theorem token_rotation_single_use_witness :
    (({ refreshTokens := [
        { id := "r1"
          userId := "u"
          token := "R1"
          expiresAt := 100
          revokedAt := none
          createdAt := 0 }] } : AuthDb).refreshTokens.find?
          (fun x => x.token == "R1") =
      some { id := "r1"
             userId := "u"
             token := "R1"
             expiresAt := 100
             revokedAt := none
             createdAt := 0 }) ∧
    (verifyRefreshToken (fun u => u) 10 "r2" "R2"
      { refreshTokens := [
        { id := "r1"
          userId := "u"
          token := "R1"
          expiresAt := 100
          revokedAt := none
          createdAt := 0 }] } "R1").1.refreshTokens.find?
        (fun x => x.token == "R1") = none := by
  refine ⟨by decide, ?_⟩
  exact (token_rotation_single_use (fun u => u) 10 "r2" "R2"
    { refreshTokens := [
      { id := "r1"
        userId := "u"
        token := "R1"
        expiresAt := 100
        revokedAt := none
        createdAt := 0 }] } "R1"
    { id := "r1"
      userId := "u"
      token := "R1"
      expiresAt := 100
      revokedAt := none
      createdAt := 0 }
    (by decide) (by decide) rfl (by decide) (by decide)).2.1

/-! ## Ingestion pipeline

The per-signal pipeline of `eventRoutes` (`POST /events/batch`,
src/routes/events.ts).  The Prisma store is the explicit `Db` record; the
zod payload-schema layer is the external collaborator `validate` (returning
the validated-payload projection, `none` for an unknown type or a failing
parse); `ed` is the Ed25519 primitive (§ signature verifier); `now` is the
clock used for `lastSeenAt`, and `freshId` the id generated for a newly
created device row.  The `$transaction` of step 8 is one atomic state
update; its throw path (the in-transaction sequence re-check) leaves the
store untouched and rejects the signal. -/

structure DeviceRow where
  id : String
  userId : String
  publicKey : String
  lastSeenAt : Int
deriving DecidableEq

structure SignalRow where
  eventId : String
  deviceId : String
  assignmentId : String
  courseId : Option String
  sessionId : String
  type : String
  timestamp : String
  payload : Payload
  seq : Nat
  signature : String
  devicePubKey : String
deriving DecidableEq

structure SeqRow where
  deviceId : String
  assignmentId : String
  lastSeq : Nat
deriving DecidableEq

structure CheckpointRow where
  deviceId : String
  assignmentId : String
  state : CheckpointState
deriving DecidableEq

structure TamperFlagRow where
  deviceId : String
  assignmentId : String
  type : TamperType
  description : String
  detectedAtSeq : Nat
  signalId : Option String
  previousCheckpointId : Option String
  newCheckpointId : Option String
deriving DecidableEq

structure Db where
  devices : List DeviceRow
  signals : List SignalRow
  sequences : List SeqRow
  checkpoints : List CheckpointRow
  tamperFlags : List TamperFlagRow
deriving DecidableEq

/-- One wire signal of the batch body (after the base zod shape check). -/
structure WireSignal where
  event_id : String
  ts : String
  session_id : String
  type : String
  payload : Json
  assignment_id : String
  course_id : Option String := none
  commit_sha : Option String := none
  repo_identifier : Option String := none
  device_pubkey : String
  seq : Nat
  sig : String

/-- `JSON.stringify` drops `undefined`-valued properties, so an optional
wire field contributes an entry only when present. -/
def optEntry (k : String) (v : Option String) : List (String × Json) :=
  match v with
  | some s => [(k, Json.str s)]
  | none => []

/-- `payloadToVerify` (step 2): the object the client signed, built from the
ORIGINAL wire fields, not the validated payload. -/
def payloadToVerify (s : WireSignal) : Json :=
  Json.obj ([("event_id", Json.str s.event_id),
    ("ts", Json.str s.ts),
    ("session_id", Json.str s.session_id),
    ("type", Json.str s.type),
    ("payload", s.payload),
    ("assignment_id", Json.str s.assignment_id)] ++
    optEntry "course_id" s.course_id ++
    optEntry "commit_sha" s.commit_sha ++
    optEntry "repo_identifier" s.repo_identifier)

/-- `getNextSequenceNumber`: `lastSeq` of the `DeviceSequence` row, `0` when
no row exists. -/
def getNextSequenceNumber (db : Db) (deviceId assignmentId : String) : Nat :=
  match db.sequences.find? (fun r => r.deviceId == deviceId && r.assignmentId == assignmentId) with
  | some r => r.lastSeq
  | none => 0

/-- `incrementSequenceNumber`: upsert `lastSeq := newSeq`. -/
def upsertSeqRow (rows : List SeqRow) (deviceId assignmentId : String) (newSeq : Nat) :
    List SeqRow :=
  if rows.any (fun r => r.deviceId == deviceId && r.assignmentId == assignmentId) then
    rows.map (fun r =>
      if r.deviceId == deviceId && r.assignmentId == assignmentId then
        { r with lastSeq := newSeq }
      else r)
  else rows ++ [{ deviceId := deviceId, assignmentId := assignmentId, lastSeq := newSeq }]

/-- `getCheckpointState`: stored checkpoint state for the pair. -/
def getCheckpointState (db : Db) (deviceId assignmentId : String) : Option CheckpointState :=
  (db.checkpoints.find?
    (fun r => r.deviceId == deviceId && r.assignmentId == assignmentId)).map CheckpointRow.state

/-- `deviceCheckpoint.upsert` of step 8. -/
def upsertCheckpointRow (rows : List CheckpointRow) (deviceId assignmentId : String)
    (state : CheckpointState) : List CheckpointRow :=
  if rows.any (fun r => r.deviceId == deviceId && r.assignmentId == assignmentId) then
    rows.map (fun r =>
      if r.deviceId == deviceId && r.assignmentId == assignmentId then
        { r with state := state }
      else r)
  else rows ++ [{ deviceId := deviceId, assignmentId := assignmentId, state := state }]

/-- `prisma.device.upsert` (step 3): update `lastSeenAt` when the public key
is known, else create a row bound to the authenticated user. -/
def upsertDevice (db : Db) (now : Int) (userId freshId pubkey : String) : Db × DeviceRow :=
  match db.devices.find? (fun d => d.publicKey == pubkey) with
  | some d =>
    ({ db with devices := db.devices.map (fun x =>
        if x.publicKey == pubkey then { x with lastSeenAt := now } else x) },
      { d with lastSeenAt := now })
  | none =>
    let d : DeviceRow := { id := freshId, userId := userId, publicKey := pubkey, lastSeenAt := now }
    ({ db with devices := db.devices ++ [d] }, d)

/-- The rejection branches of the per-signal loop, one per `continue`. -/
inductive RejectReason where
  | invalidPayload
  | badSignature
  | ownershipMismatch
  | seqReplay
  | seqGap
  | duplicate
  | txnConflict
deriving DecidableEq

inductive SignalOutcome where
  | accepted
  | rejected (why : RejectReason)
deriving DecidableEq

/-- Steps 1-8 of the per-signal pipeline. -/
def processSignal (ed : String → List Nat → List Nat → Bool)
    (validate : String → Json → Option Payload)
    (now : Int) (freshId : String) (userId : String)
    (db : Db) (s : WireSignal) : Db × SignalOutcome :=
  match validate s.type s.payload with
  | none => (db, SignalOutcome.rejected RejectReason.invalidPayload)
  | some vp =>
    if !(verifySignature ed (payloadToVerify s) s.sig s.device_pubkey) then
      (db, SignalOutcome.rejected RejectReason.badSignature)
    else
      let up := upsertDevice db now userId freshId s.device_pubkey
      let db1 := up.1
      let device := up.2
      if device.userId ≠ userId then
        (db1, SignalOutcome.rejected RejectReason.ownershipMismatch)
      else
        let currentSeq := getNextSequenceNumber db1 device.id s.assignment_id
        if s.seq ≤ currentSeq then
          (db1, SignalOutcome.rejected RejectReason.seqReplay)
        else if s.seq ≠ currentSeq + 1 ∧ ¬ (currentSeq = 0) then
          (db1, SignalOutcome.rejected RejectReason.seqGap)
        else if db1.signals.any
            (fun row => row.eventId == s.event_id && row.assignmentId == s.assignment_id) then
          (db1, SignalOutcome.rejected RejectReason.duplicate)
        else
          let checkpointId :=
            if s.type == "UNVERIFIED_CHANGES" then jsOrNull vp.last_checkpoint_id else none
          let sd : SignalData :=
            { eventId := s.event_id
              type := s.type
              timestamp := s.ts
              seq := s.seq
              sessionId := s.session_id
              checkpointId := checkpointId }
          let tamperResult :=
            detectTampering (getCheckpointState db1 device.id s.assignment_id) sd (some vp)
          let txSeq := getNextSequenceNumber db1 device.id s.assignment_id
          if s.seq ≠ txSeq + 1 ∧ ¬ (txSeq = 0 ∧ 1 < s.seq) then
            (db1, SignalOutcome.rejected RejectReason.txnConflict)
          else
            let newSignal : SignalRow :=
              { eventId := s.event_id
                deviceId := device.id
                assignmentId := s.assignment_id
                courseId := s.course_id
                sessionId := s.session_id
                type := s.type
                timestamp := s.ts
                payload := vp
                seq := s.seq
                signature := s.sig
                devicePubKey := s.device_pubkey }
            let db2 : Db :=
              { db1 with
                signals := db1.signals ++ [newSignal]
                sequences := upsertSeqRow db1.sequences device.id s.assignment_id s.seq
                checkpoints :=
                  upsertCheckpointRow db1.checkpoints device.id s.assignment_id
                    tamperResult.updatedState }
            let db3 : Db :=
              match tamperResult.tamperType, tamperResult.description with
              | some tt, some d =>
                if tamperResult.isTampered && (d != "") then
                  { db2 with tamperFlags := db2.tamperFlags ++ [
                    { deviceId := device.id
                      assignmentId := s.assignment_id
                      type := tt
                      description := d
                      detectedAtSeq := s.seq
                      signalId := some s.event_id
                      previousCheckpointId := tamperResult.previousCheckpointId
                      newCheckpointId := checkpointId }] }
                else db2
              | _, _ => db2
            (db3, SignalOutcome.accepted)

/-- The batch loop: signals processed sequentially, the store threaded
through; each signal lands in exactly one of the accepted or rejected id
lists (in the source the whole iteration body is wrapped in try/catch whose
catch pushes to `rejected`).  `k` numbers the ids supplied for newly created
device rows. -/
def processBatch (ed : String → List Nat → List Nat → Bool)
    (validate : String → Json → Option Payload)
    (now : Int) (userId : String) :
    Db → Nat → List WireSignal → Db × List String × List String
  | db, _, [] => (db, [], [])
  | db, k, s :: rest =>
    let step := processSignal ed validate now ("device-" ++ toString k) userId db s
    let restRes := processBatch ed validate now userId step.1 (k + 1) rest
    match step.2 with
    | SignalOutcome.accepted => (restRes.1, s.event_id :: restRes.2.1, restRes.2.2)
    | SignalOutcome.rejected _ => (restRes.1, restRes.2.1, s.event_id :: restRes.2.2)

/-- C9: the batch response counts tally — every signal of the batch lands in
exactly one of the accepted count or the rejected-id list:
`accepted + rejected = n`, for every store, identity, oracle and validator. -/
theorem batch_accounting (ed : String → List Nat → List Nat → Bool)
    (validate : String → Json → Option Payload) (now : Int) (userId : String) :
    ∀ (signals : List WireSignal) (db : Db) (k : Nat),
      (processBatch ed validate now userId db k signals).2.1.length +
        (processBatch ed validate now userId db k signals).2.2.length = signals.length := by
  intro signals
  induction signals with
  | nil => intro db k; rfl
  | cons s rest ih =>
    intro db k
    unfold processBatch
    have hrec := ih (processSignal ed validate now ("device-" ++ toString k) userId db s).1 (k + 1)
    cases h : (processSignal ed validate now ("device-" ++ toString k) userId db s).2 with
    | accepted => simp [h]; omega
    | rejected why => simp [h]; omega

/-- `upsertDevice` touches only the device table. -/
theorem upsertDevice_only_devices (db : Db) (now : Int) (userId freshId pubkey : String) :
    (upsertDevice db now userId freshId pubkey).1.signals = db.signals ∧
    (upsertDevice db now userId freshId pubkey).1.sequences = db.sequences ∧
    (upsertDevice db now userId freshId pubkey).1.checkpoints = db.checkpoints ∧
    (upsertDevice db now userId freshId pubkey).1.tamperFlags = db.tamperFlags := by
  unfold upsertDevice
  split <;> simp

/-- A well-formed wire public key: 64 hex characters. -/
def pkA : String := String.mk (List.replicate 64 'a')

/-- A well-formed wire signature: 128 hex characters. -/
def sgB : String := String.mk (List.replicate 128 'b')

/-- Test stand-in for the Ed25519 primitive: accepts everything. -/
def edTrue : String → List Nat → List Nat → Bool := fun _ _ _ => true

/-- Test stand-in for the external schema-validation collaborator. -/
def validateTrivial : String → Json → Option Payload := fun _ _ => some {}

/-- Store holding device d1 (lastSeenAt 0), an already-stored signal
(e1, a1) and the sequence row lastSeq = 1. -/
def dupDb : Db :=
  { devices := [{ id := "d1", userId := "u", publicKey := pkA, lastSeenAt := 0 }]
    signals := [
      { eventId := "e1"
        deviceId := "d1"
        assignmentId := "a1"
        courseId := none
        sessionId := "s1"
        type := "SESSION_START"
        timestamp := "t0"
        payload := {}
        seq := 1
        signature := sgB
        devicePubKey := pkA }]
    sequences := [{ deviceId := "d1", assignmentId := "a1", lastSeq := 1 }]
    checkpoints := []
    tamperFlags := [] }

/-- Resubmission of event e1 with a fresh sequence number 2 (the signature
does not cover `seq`, so this passes signature verification). -/
def dupWire : WireSignal :=
  { event_id := "e1"
    ts := "t1"
    session_id := "s1"
    type := "SESSION_START"
    payload := Json.null
    assignment_id := "a1"
    device_pubkey := pkA
    seq := 2
    sig := sgB }

/-- C8 counterexample: the duplicate (e1, a1) is rejected as a duplicate and
no Signal row is inserted, but the persisted Device row IS modified — the
device upsert (step 3) refreshes `lastSeenAt` before the idempotency check
(step 6) runs — contradicting "no other field (including the Device row) is
altered". -/
theorem duplicate_state_counterexample :
    (processSignal edTrue validateTrivial 5 "dX" "u" dupDb dupWire).2 =
      SignalOutcome.rejected RejectReason.duplicate ∧
    (processSignal edTrue validateTrivial 5 "dX" "u" dupDb dupWire).1.signals =
      dupDb.signals ∧
    (processSignal edTrue validateTrivial 5 "dX" "u" dupDb dupWire).1.devices ≠
      dupDb.devices := by
  refine ⟨by decide, by decide, by decide⟩

/-- C8 (amended): a signal that reaches the idempotency check (valid
payload, valid signature, owned device, passing sequence pre-check) whose
(eventId, assignmentId) already exists is rejected as a duplicate, and the
Signal, DeviceSequence, DeviceCheckpoint and TamperFlag tables are left
exactly as they were — but the Device row is refreshed (and may even be
created) because the device upsert precedes the idempotency check. -/
theorem duplicate_rejection_state
    (ed : String → List Nat → List Nat → Bool)
    (validate : String → Json → Option Payload)
    (now : Int) (freshId userId : String) (db : Db) (s : WireSignal) (vp : Payload)
    (hv : validate s.type s.payload = some vp)
    (hsig : verifySignature ed (payloadToVerify s) s.sig s.device_pubkey = true)
    (hown : (upsertDevice db now userId freshId s.device_pubkey).2.userId = userId)
    (hreplay : ¬ s.seq ≤ getNextSequenceNumber
        (upsertDevice db now userId freshId s.device_pubkey).1
        (upsertDevice db now userId freshId s.device_pubkey).2.id s.assignment_id)
    (hgap : ¬ (s.seq ≠ getNextSequenceNumber
        (upsertDevice db now userId freshId s.device_pubkey).1
        (upsertDevice db now userId freshId s.device_pubkey).2.id s.assignment_id + 1 ∧
      ¬ (getNextSequenceNumber
        (upsertDevice db now userId freshId s.device_pubkey).1
        (upsertDevice db now userId freshId s.device_pubkey).2.id s.assignment_id = 0)))
    (hdup : (upsertDevice db now userId freshId s.device_pubkey).1.signals.any
        (fun row => row.eventId == s.event_id && row.assignmentId == s.assignment_id) = true) :
    processSignal ed validate now freshId userId db s =
      ((upsertDevice db now userId freshId s.device_pubkey).1,
        SignalOutcome.rejected RejectReason.duplicate) ∧
    (upsertDevice db now userId freshId s.device_pubkey).1.signals = db.signals ∧
    (upsertDevice db now userId freshId s.device_pubkey).1.sequences = db.sequences ∧
    (upsertDevice db now userId freshId s.device_pubkey).1.checkpoints = db.checkpoints ∧
    (upsertDevice db now userId freshId s.device_pubkey).1.tamperFlags = db.tamperFlags := by
  have honly := upsertDevice_only_devices db now userId freshId s.device_pubkey
  refine ⟨?_, honly.1, honly.2.1, honly.2.2.1, honly.2.2.2⟩
  unfold processSignal
  simp only [hv]
  simp only [hsig, Bool.not_true, Bool.false_eq_true, if_false]
  rw [if_neg (fun hc => hc hown), if_neg hreplay, if_neg hgap, if_pos hdup]

/-- Witness for the amended C8: the concrete duplicate resubmission reaches
the idempotency check and is rejected with only the device table touched. -/
theorem duplicate_rejection_state_witness :
    ((upsertDevice dupDb 5 "u" "dX" dupWire.device_pubkey).1.signals.any
      (fun row => row.eventId == dupWire.event_id &&
        row.assignmentId == dupWire.assignment_id) = true) ∧
    processSignal edTrue validateTrivial 5 "dX" "u" dupDb dupWire =
      ((upsertDevice dupDb 5 "u" "dX" dupWire.device_pubkey).1,
        SignalOutcome.rejected RejectReason.duplicate) :=
  ⟨by decide,
    (duplicate_rejection_state edTrue validateTrivial 5 "dX" "u" dupDb dupWire {}
      rfl (by decide) (by decide) (by decide) (by decide) (by decide)).1⟩

/-- A string with a nonempty left component is nonempty. -/
theorem string_append_left_ne_empty (a b : String) (h : a.data ≠ []) : a ++ b ≠ "" := by
  intro hc
  have hdata := congrArg String.data hc
  rw [String.data_append] at hdata
  rcases List.append_eq_nil.mp hdata with ⟨h1, _⟩
  exact h h1

/-- C7: an accepted signal whose (device, assignment) pair has a prior
checkpoint state with a non-null `lastCheckpointId` (stored states never
hold the empty string — hypothesis `hinv`, preserved by the pipeline) and
which carries no checkpoint id is flagged `checkpoint_reset`, and the
TamperFlag row, the Signal row and the checkpoint update are all produced
by the one atomic transaction step of `processSignal`. -/
theorem checkpoint_reset_flag_atomic
    (ed : String → List Nat → List Nat → Bool)
    (validate : String → Json → Option Payload)
    (now : Int) (freshId userId : String) (db : Db) (s : WireSignal) (vp : Payload)
    (st : CheckpointState) (c : String)
    (hv : validate s.type s.payload = some vp)
    (hsig : verifySignature ed (payloadToVerify s) s.sig s.device_pubkey = true)
    (hown : (upsertDevice db now userId freshId s.device_pubkey).2.userId = userId)
    (hreplay : ¬ s.seq ≤ getNextSequenceNumber
        (upsertDevice db now userId freshId s.device_pubkey).1
        (upsertDevice db now userId freshId s.device_pubkey).2.id s.assignment_id)
    (hgap : ¬ (s.seq ≠ getNextSequenceNumber
        (upsertDevice db now userId freshId s.device_pubkey).1
        (upsertDevice db now userId freshId s.device_pubkey).2.id s.assignment_id + 1 ∧
      ¬ (getNextSequenceNumber
        (upsertDevice db now userId freshId s.device_pubkey).1
        (upsertDevice db now userId freshId s.device_pubkey).2.id s.assignment_id = 0)))
    (hdup : (upsertDevice db now userId freshId s.device_pubkey).1.signals.any
        (fun row => row.eventId == s.event_id && row.assignmentId == s.assignment_id) = false)
    (hinv : ∀ cp ∈ db.checkpoints, cp.state.lastCheckpointId ≠ some "")
    (hstate : getCheckpointState (upsertDevice db now userId freshId s.device_pubkey).1
        (upsertDevice db now userId freshId s.device_pubkey).2.id s.assignment_id = some st)
    (hcp : st.lastCheckpointId = some c)
    (hnochk : (if s.type == "UNVERIFIED_CHANGES" then jsOrNull vp.last_checkpoint_id
        else none) = none) :
    (processSignal ed validate now freshId userId db s).2 = SignalOutcome.accepted ∧
    (processSignal ed validate now freshId userId db s).1.tamperFlags =
      (upsertDevice db now userId freshId s.device_pubkey).1.tamperFlags ++ [
        { deviceId := (upsertDevice db now userId freshId s.device_pubkey).2.id
          assignmentId := s.assignment_id
          type := TamperType.checkpoint_reset
          description := "Client state reset: previous checkpoint " ++ c ++
            " was lost. This indicates the .verified folder may have been deleted."
          detectedAtSeq := s.seq
          signalId := some s.event_id
          previousCheckpointId := some c
          newCheckpointId := none }] ∧
    (processSignal ed validate now freshId userId db s).1.signals =
      (upsertDevice db now userId freshId s.device_pubkey).1.signals ++ [
        { eventId := s.event_id
          deviceId := (upsertDevice db now userId freshId s.device_pubkey).2.id
          assignmentId := s.assignment_id
          courseId := s.course_id
          sessionId := s.session_id
          type := s.type
          timestamp := s.ts
          payload := vp
          seq := s.seq
          signature := s.sig
          devicePubKey := s.device_pubkey }] ∧
    (processSignal ed validate now freshId userId db s).1.checkpoints =
      upsertCheckpointRow (upsertDevice db now userId freshId s.device_pubkey).1.checkpoints
        (upsertDevice db now userId freshId s.device_pubkey).2.id s.assignment_id
        (updatedStateOf st
          { eventId := s.event_id
            type := s.type
            timestamp := s.ts
            seq := s.seq
            sessionId := s.session_id
            checkpointId := none }
          (some vp) (some TamperType.checkpoint_reset)) := by
  have honly := upsertDevice_only_devices db now userId freshId s.device_pubkey
  have hc : c ≠ "" := by
    have h1 := hstate
    unfold getCheckpointState at h1
    rw [honly.2.2.1] at h1
    rcases Option.map_eq_some'.mp h1 with ⟨row, hfindr, hrowst⟩
    have hmem := List.mem_of_find?_eq_some hfindr
    have := hinv row hmem
    rw [hrowst, hcp] at this
    intro hcc
    exact this (by rw [hcc])
  have hhad : hadPreviousCheckpoint st = true := by
    unfold hadPreviousCheckpoint
    simp only [hcp]
    exact bne_iff_ne.mpr hc
  have hchain : detectChain st
      { eventId := s.event_id
        type := s.type
        timestamp := s.ts
        seq := s.seq
        sessionId := s.session_id
        checkpointId := none }
      (some vp) =
      (some TamperType.checkpoint_reset,
        some ("Client state reset: previous checkpoint " ++ c ++
          " was lost. This indicates the .verified folder may have been deleted.")) := by
    unfold detectChain
    simp [hhad, hasNewCheckpoint, hcp, optStr]
  have hdne : ("Client state reset: previous checkpoint " ++ c ++
      " was lost. This indicates the .verified folder may have been deleted.") ≠ "" := by
    apply string_append_left_ne_empty
    rw [String.data_append]
    intro hcon
    rcases List.append_eq_nil.mp hcon with ⟨h1, _⟩
    exact absurd (congrArg List.length h1) (by decide)
  have hdetect : detectTampering (some st)
      { eventId := s.event_id
        type := s.type
        timestamp := s.ts
        seq := s.seq
        sessionId := s.session_id
        checkpointId := none }
      (some vp) =
      { isTampered := true
        tamperType := some TamperType.checkpoint_reset
        description := some ("Client state reset: previous checkpoint " ++ c ++
          " was lost. This indicates the .verified folder may have been deleted.")
        updatedState := updatedStateOf st
          { eventId := s.event_id
            type := s.type
            timestamp := s.ts
            seq := s.seq
            sessionId := s.session_id
            checkpointId := none }
          (some vp) (some TamperType.checkpoint_reset)
        previousCheckpointId := some c } := by
    unfold detectTampering
    simp only [hchain]
    simp [hcp, hdne]
  have hrun : processSignal ed validate now freshId userId db s =
      ({ (upsertDevice db now userId freshId s.device_pubkey).1 with
          signals := (upsertDevice db now userId freshId s.device_pubkey).1.signals ++ [
            { eventId := s.event_id
              deviceId := (upsertDevice db now userId freshId s.device_pubkey).2.id
              assignmentId := s.assignment_id
              courseId := s.course_id
              sessionId := s.session_id
              type := s.type
              timestamp := s.ts
              payload := vp
              seq := s.seq
              signature := s.sig
              devicePubKey := s.device_pubkey }]
          sequences := upsertSeqRow
            (upsertDevice db now userId freshId s.device_pubkey).1.sequences
            (upsertDevice db now userId freshId s.device_pubkey).2.id s.assignment_id s.seq
          checkpoints := upsertCheckpointRow
            (upsertDevice db now userId freshId s.device_pubkey).1.checkpoints
            (upsertDevice db now userId freshId s.device_pubkey).2.id s.assignment_id
            (updatedStateOf st
              { eventId := s.event_id
                type := s.type
                timestamp := s.ts
                seq := s.seq
                sessionId := s.session_id
                checkpointId := none }
              (some vp) (some TamperType.checkpoint_reset))
          tamperFlags := (upsertDevice db now userId freshId s.device_pubkey).1.tamperFlags ++ [
            { deviceId := (upsertDevice db now userId freshId s.device_pubkey).2.id
              assignmentId := s.assignment_id
              type := TamperType.checkpoint_reset
              description := "Client state reset: previous checkpoint " ++ c ++
                " was lost. This indicates the .verified folder may have been deleted."
              detectedAtSeq := s.seq
              signalId := some s.event_id
              previousCheckpointId := some c
              newCheckpointId := none }] },
        SignalOutcome.accepted) := by
    unfold processSignal
    simp only [hv]
    simp only [hsig, Bool.not_true, Bool.false_eq_true, if_false]
    rw [if_neg (fun hc' => hc' hown), if_neg hreplay, if_neg hgap]
    rw [if_neg (by simp [hdup])]
    rw [hnochk, hstate, hdetect]
    rw [if_neg (by omega)]
    simp [bne_iff_ne.mpr hdne]
  refine ⟨?_, ?_, ?_, ?_⟩
  · rw [hrun]
  · rw [hrun]
  · rw [hrun]
  · rw [hrun]

/-- Prior checkpoint state for the C7 witness: checkpoint "ck1" at seq 1. -/
def resetSt : CheckpointState :=
  { lastCheckpointId := some "ck1"
    stateHash := "h"
    seq := 1
    sessionCount := 1
    totalFocusedSeconds := 0
    hasDiscontinuity := false }

/-- Store for the C7 witness: device d1, sequence row at 1, prior checkpoint
state `resetSt`, no stored signals or flags. -/
def resetDb : Db :=
  { devices := [{ id := "d1", userId := "u", publicKey := pkA, lastSeenAt := 0 }]
    signals := []
    sequences := [{ deviceId := "d1", assignmentId := "a1", lastSeq := 1 }]
    checkpoints := [{ deviceId := "d1", assignmentId := "a1", state := resetSt }]
    tamperFlags := [] }

/-- Follow-up signal for the C7 witness: SESSION_START, seq 2, carrying no
checkpoint id. -/
def resetWire : WireSignal :=
  { event_id := "e2"
    ts := "t1"
    session_id := "s1"
    type := "SESSION_START"
    payload := Json.null
    assignment_id := "a1"
    device_pubkey := pkA
    seq := 2
    sig := sgB }

/-- Witness for C7 at the concrete store: the signal is accepted and the
`checkpoint_reset` TamperFlag row is appended by the same transaction
step. -/
theorem checkpoint_reset_flag_atomic_witness :
    getCheckpointState (upsertDevice resetDb 5 "u" "dX" resetWire.device_pubkey).1
      (upsertDevice resetDb 5 "u" "dX" resetWire.device_pubkey).2.id
      resetWire.assignment_id = some resetSt ∧
    (processSignal edTrue validateTrivial 5 "dX" "u" resetDb resetWire).2 =
      SignalOutcome.accepted ∧
    (processSignal edTrue validateTrivial 5 "dX" "u" resetDb resetWire).1.tamperFlags =
      (upsertDevice resetDb 5 "u" "dX" resetWire.device_pubkey).1.tamperFlags ++ [
        { deviceId := (upsertDevice resetDb 5 "u" "dX" resetWire.device_pubkey).2.id
          assignmentId := resetWire.assignment_id
          type := TamperType.checkpoint_reset
          description := "Client state reset: previous checkpoint " ++ "ck1" ++
            " was lost. This indicates the .verified folder may have been deleted."
          detectedAtSeq := resetWire.seq
          signalId := some resetWire.event_id
          previousCheckpointId := some "ck1"
          newCheckpointId := none }] :=
  ⟨by decide,
    (checkpoint_reset_flag_atomic edTrue validateTrivial 5 "dX" "u" resetDb resetWire {}
      resetSt "ck1" rfl (by decide) (by decide) (by decide) (by decide) (by decide)
      (by decide) (by decide) rfl rfl).1,
    (checkpoint_reset_flag_atomic edTrue validateTrivial 5 "dX" "u" resetDb resetWire {}
      resetSt "ck1" rfl (by decide) (by decide) (by decide) (by decide) (by decide)
      (by decide) (by decide) rfl rfl).2.1⟩

/-- `jsOrNull` never produces the empty string. -/
theorem jsOrNull_ne_empty (o : Option String) : jsOrNull o ≠ some "" := by
  unfold jsOrNull
  cases o with
  | none => simp
  | some v =>
    by_cases h : v = ""
    · simp [h]
    · simp [h]

/-- Rows surviving `upsertCheckpointRow` either carry the new state or were
already present. -/
theorem upsertCheckpointRow_mem (rows : List CheckpointRow) (d a : String)
    (st' : CheckpointState) :
    ∀ cp ∈ upsertCheckpointRow rows d a st', cp.state = st' ∨ cp ∈ rows := by
  intro cp hcp
  unfold upsertCheckpointRow at hcp
  split at hcp
  · rcases List.mem_map.mp hcp with ⟨r, hr, heq⟩
    by_cases hc : (r.deviceId == d && r.assignmentId == a) = true
    · left
      rw [← heq]
      simp [hc]
    · right
      rw [← heq]
      simp [hc]
      exact hr
  · rcases List.mem_append.mp hcp with h | h
    · right
      exact h
    · left
      simp at h
      rw [h]

/-- The tamper detector never stores the empty string as a checkpoint id
when the incoming signal does not carry it and the prior state does not hold
it. -/
theorem detectTampering_no_empty_checkpointId
    (cs : Option CheckpointState) (sd : SignalData) (payload : Option Payload)
    (hsd : sd.checkpointId ≠ some "")
    (hcs : ∀ st, cs = some st → st.lastCheckpointId ≠ some "") :
    (detectTampering cs sd payload).updatedState.lastCheckpointId ≠ some "" := by
  cases cs with
  | none =>
    simp only [detectTampering, seedState]
    exact jsOrNull_ne_empty sd.checkpointId
  | some st =>
    unfold detectTampering
    by_cases hd : (detectChain st sd payload).1.isSome
    · simp only [hd, if_true, updatedStateOf, hasNewCheckpoint]
      by_cases hn : sd.checkpointId.isSome
      · simp [hn, hsd]
      · simp [hn]
        exact fun hcon => hcs st rfl (by rw [hcon])
    · simp only [hd, if_false, Bool.false_eq_true, updatedStateOf, hasNewCheckpoint]
      by_cases hn : sd.checkpointId.isSome
      · simp [hn, hsd]
      · simp [hn]
        exact fun hcon => hcs st rfl (by rw [hcon])


theorem processSignal_checkpoints_shape
    (ed : String → List Nat → List Nat → Bool)
    (validate : String → Json → Option Payload)
    (now : Int) (freshId userId : String) (db : Db) (s : WireSignal) :
    (processSignal ed validate now freshId userId db s).1.checkpoints = db.checkpoints ∨
    ∃ vp, validate s.type s.payload = some vp ∧
      (processSignal ed validate now freshId userId db s).1.checkpoints =
        upsertCheckpointRow (upsertDevice db now userId freshId s.device_pubkey).1.checkpoints
          (upsertDevice db now userId freshId s.device_pubkey).2.id s.assignment_id
          (detectTampering
            (getCheckpointState (upsertDevice db now userId freshId s.device_pubkey).1
              (upsertDevice db now userId freshId s.device_pubkey).2.id s.assignment_id)
            { eventId := s.event_id
              type := s.type
              timestamp := s.ts
              seq := s.seq
              sessionId := s.session_id
              checkpointId :=
                if s.type == "UNVERIFIED_CHANGES" then jsOrNull vp.last_checkpoint_id else none }
            (some vp)).updatedState := by
  have honly := (upsertDevice_only_devices db now userId freshId s.device_pubkey).2.2.1
  cases hvp : validate s.type s.payload with
  | none =>
    left
    unfold processSignal
    simp only [hvp]
  | some vp =>
    unfold processSignal
    simp only [hvp]
    by_cases hs : verifySignature ed (payloadToVerify s) s.sig s.device_pubkey = true
    · simp only [hs, Bool.not_true, Bool.false_eq_true, if_false]
      by_cases how : (upsertDevice db now userId freshId s.device_pubkey).2.userId = userId
      · rw [if_neg (fun hcc => hcc how)]
        by_cases hr : s.seq ≤ getNextSequenceNumber
            (upsertDevice db now userId freshId s.device_pubkey).1
            (upsertDevice db now userId freshId s.device_pubkey).2.id s.assignment_id
        · rw [if_pos hr]
          exact Or.inl honly
        · rw [if_neg hr]
          by_cases hg : s.seq ≠ getNextSequenceNumber
              (upsertDevice db now userId freshId s.device_pubkey).1
              (upsertDevice db now userId freshId s.device_pubkey).2.id s.assignment_id + 1 ∧
            ¬ (getNextSequenceNumber
              (upsertDevice db now userId freshId s.device_pubkey).1
              (upsertDevice db now userId freshId s.device_pubkey).2.id s.assignment_id = 0)
          · rw [if_pos hg]
            exact Or.inl honly
          · rw [if_neg hg]
            by_cases hd : ((upsertDevice db now userId freshId s.device_pubkey).1.signals.any
                (fun row => row.eventId == s.event_id &&
                  row.assignmentId == s.assignment_id)) = true
            · rw [if_pos hd]
              exact Or.inl honly
            · rw [if_neg hd]
              by_cases ht : s.seq ≠ getNextSequenceNumber
                  (upsertDevice db now userId freshId s.device_pubkey).1
                  (upsertDevice db now userId freshId s.device_pubkey).2.id s.assignment_id + 1 ∧
                ¬ (getNextSequenceNumber
                  (upsertDevice db now userId freshId s.device_pubkey).1
                  (upsertDevice db now userId freshId s.device_pubkey).2.id s.assignment_id = 0 ∧
                  1 < s.seq)
              · rw [if_pos ht]
                exact Or.inl honly
              · rw [if_neg ht]
                right
                refine ⟨vp, rfl, ?_⟩
                generalize (if s.type == "UNVERIFIED_CHANGES" then jsOrNull vp.last_checkpoint_id
                  else none) = cid
                generalize (detectTampering
                  (getCheckpointState (upsertDevice db now userId freshId s.device_pubkey).1
                    (upsertDevice db now userId freshId s.device_pubkey).2.id s.assignment_id)
                  { eventId := s.event_id
                    type := s.type
                    timestamp := s.ts
                    seq := s.seq
                    sessionId := s.session_id
                    checkpointId := cid }
                  (some vp)) = T
                rcases htt : T.tamperType with _ | tt
                · simp only [htt]
                · rcases hdd : T.description with _ | d
                  · simp only [htt, hdd]
                  · simp only [htt, hdd]
                    split
                    · rfl
                    · rfl
      · rw [if_pos how]
        exact Or.inl honly
    · have hs' : verifySignature ed (payloadToVerify s) s.sig s.device_pubkey = false :=
        Bool.not_eq_true _ ▸ eq_false_of_ne_true hs
      simp only [hs', Bool.not_false, if_true]
      exact Or.inl (by trivial)

/-- Reachability invariant behind C7's reading of "non-null
lastCheckpointId": the pipeline never stores the empty string as a
checkpoint id (the orchestrator collapses `""` to null via `|| null` before
the detector sees it), so every stored non-null id is a non-empty string. -/
theorem processSignal_checkpointId_invariant
    (ed : String → List Nat → List Nat → Bool)
    (validate : String → Json → Option Payload)
    (now : Int) (freshId userId : String) (db : Db) (s : WireSignal)
    (hinv : ∀ cp ∈ db.checkpoints, cp.state.lastCheckpointId ≠ some "") :
    ∀ cp ∈ (processSignal ed validate now freshId userId db s).1.checkpoints,
      cp.state.lastCheckpointId ≠ some "" := by
  intro cp hcp
  rcases processSignal_checkpoints_shape ed validate now freshId userId db s with
    hsh | ⟨vp, hvp, hsh⟩
  · rw [hsh] at hcp
    exact hinv cp hcp
  · rw [hsh] at hcp
    have honly := (upsertDevice_only_devices db now userId freshId s.device_pubkey).2.2.1
    rcases upsertCheckpointRow_mem _ _ _ _ cp hcp with hst | hmem
    · rw [hst]
      apply detectTampering_no_empty_checkpointId
      · show (if s.type == "UNVERIFIED_CHANGES" then jsOrNull vp.last_checkpoint_id
          else none) ≠ some ""
        by_cases hq : (s.type == "UNVERIFIED_CHANGES") = true
        · simp only [hq, if_true]
          exact jsOrNull_ne_empty _
        · simp only [hq, Bool.false_eq_true, if_false]
          simp
      · intro st hst'
        unfold getCheckpointState at hst'
        rw [honly] at hst'
        rcases Option.map_eq_some'.mp hst' with ⟨row, hfindr, hrowst⟩
        exact hrowst ▸ hinv row (List.mem_of_find?_eq_some hfindr)
    · rw [honly] at hmem
      exact hinv cp hmem

end MojiProctor
